import Mathlib

/-!
# Verification of the AgentAgile Trello/Slack agent

A shallow embedding of the parts of the repository that the checked
properties are about:

* the Python `str` operations the code relies on (`lower`, `in`,
  `split`, `strip`, `join`), modelled over `List Char`;
* Python `dict`s, modelled as insertion-ordered association lists;
* `src/conversation_manager.py` (`ConversationManager`);
* the high-level board tools of `src/core/tools.py`;
* the formatting layer of `src/core/response_coordinator.py`;
* the webhook handlers of `src/app.py` and `app.py`;
* the reasoning loop driven by `src/core/agent.py`.

Machine integers do not occur; Python floats used for `time.time()`
arithmetic are modelled as natural-number seconds (only ordering and
subtraction of timestamps matter).
-/

/-! ## Python strings over `List Char` -/

/-- Python strings, modelled as their list of characters. -/
abbrev Str := List Char

/-- Embed a Lean string literal. -/
def str (s : String) : Str := s.data

/-- Python `str.lower` (ASCII behaviour). -/
def pyLower (s : Str) : Str := s.map Char.toLower

/-- `isStartOf n h` is true when `h` starts with `n`. -/
def isStartOf : Str → Str → Bool
  | [], _ => true
  | _ :: _, [] => false
  | c :: cs, d :: ds => c == d && isStartOf cs ds

/-- Python substring test `needle in hay`. -/
def strIn (needle : Str) : Str → Bool
  | [] => isStartOf needle []
  | c :: rest => isStartOf needle (c :: rest) || strIn needle rest

/-- Python `str.strip()`: drop whitespace from both ends. -/
def pyTrim (s : Str) : Str :=
  ((s.dropWhile Char.isWhitespace).reverse.dropWhile Char.isWhitespace).reverse

/-- Python `sep.join(xs)`. -/
def joinStr (sep : Str) : List Str → Str
  | [] => []
  | [x] => x
  | x :: y :: rest => x ++ sep ++ joinStr sep (y :: rest)

/-- Worker for `pySplit`; `acc` is the current chunk, reversed. -/
def pySplitAux (sep : Str) : Str → Str → List Str
  | [], acc => [acc.reverse]
  | c :: rest, acc =>
    if isStartOf sep (c :: rest) then
      acc.reverse :: pySplitAux sep (rest.drop (sep.length - 1)) []
    else
      pySplitAux sep rest (c :: acc)
termination_by s _ => s.length
decreasing_by
  · simp only [List.length_cons, List.length_drop]; omega
  · simp only [List.length_cons]; omega

/-- Python `s.split(sep)` for a non-empty separator. -/
def pySplit (sep s : Str) : List Str := pySplitAux sep s []

/-! ## Python dicts as insertion-ordered association lists -/

/-- Python `d[k]` / `k in d`: first binding for the key (keys of a real
`dict` are unique, so first = only). -/
def dictLookup {α : Type} (k : Str) : List (Str × α) → Option α
  | [] => none
  | (k', v) :: rest => if k' = k then some v else dictLookup k rest

/-- Python `d[k] = v`: replace the binding in place, or append a new one. -/
def dictSet {α : Type} (k : Str) (v : α) : List (Str × α) → List (Str × α)
  | [] => [(k, v)]
  | (k', v') :: rest => if k' = k then (k, v) :: rest else (k', v') :: dictSet k v rest

/-- Python `del d[k]` (removing every binding of the key). -/
def dictErase {α : Type} (k : Str) (d : List (Str × α)) : List (Str × α) :=
  d.filter (fun p => !(p.1 == k))

/-- Python `d.update(updates)`: merge key by key, in order. -/
def dictUpdate {α : Type} (d updates : List (Str × α)) : List (Str × α) :=
  updates.foldl (fun acc kv => dictSet kv.1 kv.2 acc) d

/-! ## `src/conversation_manager.py` — `ConversationManager`

The manager's mutable `active_conversations` dict is passed explicitly;
`time.time()` is the explicit parameter `now` (seconds). -/

/-- One entry of `active_conversations` (see `start_conversation`). -/
structure Conversation where
  action_type : Str
  created_at : Nat
  context : List (Str × Str)
  state : Str
deriving DecidableEq

/-- The `active_conversations` dict, keyed by `thread_ts`. -/
abbrev ConvStore := List (Str × Conversation)

/-- `ConversationManager.start_conversation`. -/
def start_conversation (now : Nat) (store : ConvStore) (thread_ts action_type : Str)
    (context : List (Str × Str)) : ConvStore :=
  dictSet thread_ts
    { action_type := action_type, created_at := now, context := context,
      state := str "awaiting_response" } store

/-- `ConversationManager.update_conversation`: merge `updates` into the
conversation's `context`; report whether the thread id was present. -/
def update_conversation (store : ConvStore) (thread_ts : Str)
    (updates : List (Str × Str)) : Bool × ConvStore :=
  match dictLookup thread_ts store with
  | some c => (true, dictSet thread_ts { c with context := dictUpdate c.context updates } store)
  | none => (false, store)

/-- `ConversationManager.end_conversation`: remove the entry if present. -/
def end_conversation (store : ConvStore) (thread_ts : Str) : ConvStore :=
  if (dictLookup thread_ts store).isSome then dictErase thread_ts store else store

/-- `ConversationManager.get_conversation`: evict and return `None` when
`now - created_at > ttl`, otherwise return the stored conversation. -/
def get_conversation (now ttl : Nat) (store : ConvStore) (thread_ts : Str) :
    Option Conversation × ConvStore :=
  match dictLookup thread_ts store with
  | none => (none, store)
  | some c =>
    if ttl < now - c.created_at then (none, end_conversation store thread_ts)
    else (some c, store)

/-! ## `src/core/tools.py` — high-level board tools

The remote Trello HTTP layer is abstracted into `TrelloEnv`: the values
the low-level calls of the same file would return during one tool run.
The `card_data` payload echoed by the Trello API inside success results
is not inspected by any caller and is dropped from the embedding. -/

/-- The card fields read by `generate_daily_stand_up` from a
`get_trello_card` response.  `dateLastActivity` is kept as the raw
string plus its parsed calendar date; `lastActivityDay = none` models a
`ValueError`/`TypeError` while parsing. -/
structure CardDetail where
  name : Str
  desc : Str
  closed : Bool
  url : Str
  lastActivityRaw : Str
  lastActivityDay : Option Nat
deriving DecidableEq

/-- Results of the remote calls made by one high-level tool run.
`none` models a failed HTTP request (the low-level helpers return
`None` on `RequestException`); booleans model whether a write call
returned data. -/
structure TrelloEnv where
  /-- `get_trello_lists(board_id)`: list name ↦ list id, insertion-ordered. -/
  lists : Option (List (Str × Str))
  /-- `get_cards_in_list(list_id)`: card name ↦ card id. -/
  cardsOf : Str → Option (List (Str × Str))
  /-- `create_trello_card(list_id, name, desc)` succeeded. -/
  createOk : Str → Str → Str → Bool
  /-- `update_trello_card(card_id, list_id)` (the move form) succeeded. -/
  moveOk : Str → Str → Bool
  /-- `update_trello_card(card_id, name=.., desc=..)` (the edit form) succeeded. -/
  updateOk : Str → Option Str → Option Str → Bool
  /-- `get_trello_card(card_id)` detail fetch. -/
  cardDetail : Str → Option CardDetail
  /-- `datetime.now().date()`, as an abstract day number. -/
  today : Nat
  /-- `today.strftime('%d/%m/%Y')`. -/
  todayText : Str

/-- Structured tool results: the `{"type": .., "status": .., ...}` dicts
returned by the high-level tools. `error` keeps the dict's `type` tag. -/
inductive OpResult where
  | cardsList (listName : Str) (cards : List (Str × Str))
  | cardCreated (cardName listName : Str)
  | cardMoved (cardName sourceList targetList : Str)
  | cardUpdated (cardName : Str) (updates : List Str)
  | boardsList (boards : List (Str × Str))
  | dailySummary (summary : Str) (cardsCount : Nat)
  | error (rtype message : Str) (suggestions : Option (List Str))
deriving DecidableEq

/-- Is the result an error dict (`"status": "error"`)? -/
def OpResult.isErr : OpResult → Bool
  | .error _ _ _ => true
  | _ => false

/-- `lists_lower = {name.lower(): (name, id) for name, id in lists.items()}`
followed by indexing with `query.lower()`.  A dict comprehension keeps the
last binding of a repeated key, hence `getLast?`. -/
def lowerResolve (query : Str) (d : List (Str × Str)) : Option (Str × Str) :=
  (d.filter (fun p => pyLower p.1 == pyLower query)).getLast?

/-- `[name for name in d.keys() if query.lower() in name.lower()]`. -/
def nameSuggestions (query : Str) (d : List (Str × Str)) : List Str :=
  (d.map Prod.fst).filter (fun n => strIn (pyLower query) (pyLower n))

/-- `suggestions if suggestions else None`. -/
def optSuggestions (s : List Str) : Option (List Str) :=
  if s.isEmpty then none else some s

/-- `list_cards_in_list(list_name)` of `src/core/tools.py`. -/
def list_cards_in_list (env : TrelloEnv) (list_name : Str) : OpResult :=
  match env.lists with
  | none => .error (str "cards_list") (str "Unable to retrieve list from the board.") none
  | some lists =>
    if lists.isEmpty then
      -- Python `if not lists:` treats an empty dict like a failed fetch
      .error (str "cards_list") (str "Unable to retrieve list from the board.") none
    else
      match lowerResolve list_name lists with
      | some (actual, listId) =>
        match env.cardsOf listId with
        | none =>
          .error (str "cards_list")
            (str "Unable to retrieve cards from '" ++ actual ++ str "'.") none
        | some cards => .cardsList actual cards
      | none =>
        .error (str "cards_list")
          (str "List '" ++ list_name ++ str "' not found on the board.")
          (optSuggestions (nameSuggestions list_name lists))

/-- `create_new_card(card_name, list_name, description)` of `src/core/tools.py`. -/
def create_new_card (env : TrelloEnv) (card_name list_name description : Str) : OpResult :=
  match env.lists with
  | none => .error (str "create_card") (str "Unable to retrieve lists from the board.") none
  | some lists =>
    if lists.isEmpty then
      .error (str "create_card") (str "Unable to retrieve lists from the board.") none
    else
      match lowerResolve list_name lists with
      | some (actual, listId) =>
        if env.createOk listId card_name description then
          .cardCreated card_name actual
        else
          .error (str "card_created") (str "Failed to create card '" ++ card_name ++ str "'.") none
      | none =>
        .error (str "card_created") (str "List '" ++ list_name ++ str "' not found.")
          (some (nameSuggestions list_name lists))

/-- `move_card_between_lists(card_name, source_list_name, target_list_name)`
of `src/core/tools.py`.  The second component records the moves actually
performed by the remote service (`update_trello_card(card_id, target_id)`
calls that returned data): it is empty on every error path. -/
def move_card_between_lists (env : TrelloEnv) (card_name source_list_name target_list_name : Str) :
    OpResult × List (Str × Str) :=
  match env.lists with
  | none => (.error (str "card_moved") (str "Unable to retrieve lists from the board.") none, [])
  | some lists =>
    if lists.isEmpty then
      (.error (str "card_moved") (str "Unable to retrieve lists from the board.") none, [])
    else
      match lowerResolve source_list_name lists with
      | none =>
        (.error (str "card_moved")
          (str "Source list '" ++ source_list_name ++ str "' not found.")
          (some (nameSuggestions source_list_name lists)), [])
      | some (sourceActual, sourceId) =>
        match lowerResolve target_list_name lists with
        | none =>
          (.error (str "card_moved")
            (str "Target list '" ++ target_list_name ++ str "' not found.")
            (some (nameSuggestions target_list_name lists)), [])
        | some (targetActual, targetId) =>
          match env.cardsOf sourceId with
          | none =>
            (.error (str "card_moved")
              (str "Unable to retrieve cards from '" ++ sourceActual ++ str "'.") none, [])
          | some cards =>
            match lowerResolve card_name cards with
            | none =>
              (.error (str "card_moved")
                (str "Card '" ++ card_name ++ str "' not found in '" ++ sourceActual ++ str "'.")
                (some (nameSuggestions card_name cards)), [])
            | some (cardActual, cardId) =>
              if env.moveOk cardId targetId then
                (.cardMoved cardActual sourceActual targetActual, [(cardId, targetId)])
              else
                (.error (str "card_moved")
                  (str "Failed to move card '" ++ cardActual ++ str "'.") none, [])

/-- Python truthiness of an optional string (`if not new_name`): `None`
and the empty string are both falsy. -/
def optTruthy : Option Str → Bool
  | none => false
  | some s => !s.isEmpty

/-- `update_card_details(card_name, list_name, new_name, new_description)`
of `src/core/tools.py`.  Unlike the other tools it indexes `lists` and
`cards` directly, i.e. resolves names case-sensitively and computes no
suggestions. -/
def update_card_details (env : TrelloEnv) (card_name list_name : Str)
    (new_name new_description : Option Str) : OpResult :=
  if !optTruthy new_name && !optTruthy new_description then
    .error (str "card_updated") (str "No updates specified.") none
  else
    match env.lists with
    | none => .error (str "card_updated") (str "Unable to retrieve lists from the board.") none
    | some lists =>
      if lists.isEmpty then
        .error (str "card_updated") (str "Unable to retrieve lists from the board.") none
      else
        match dictLookup list_name lists with
        | none => .error (str "card_updated") (str "List '" ++ list_name ++ str "' not found.") none
        | some listId =>
          match env.cardsOf listId with
          | none =>
            .error (str "card_updated")
              (str "Unable to retrieve cards from '" ++ list_name ++ str "'.") none
          | some cards =>
            match dictLookup card_name cards with
            | none =>
              .error (str "card_updated")
                (str "Card '" ++ card_name ++ str "' not found in '" ++ list_name ++ str "'.") none
            | some cardId =>
              if env.updateOk cardId new_name new_description then
                .cardUpdated card_name
                  ((if optTruthy new_name then [str "name"] else []) ++
                   (if optTruthy new_description then [str "description"] else []))
              else
                .error (str "card_updated")
                  (str "Failed to update card '" ++ card_name ++ str "'.") none

/-- Decimal rendering of a count (for `f"({len(today_cards)})"`). -/
def natStr (n : Nat) : Str := (toString n).data

/-- One `### card` section of the stand-up summary. -/
def standUpCardSection (c : CardDetail) : Str :=
  str "### " ++ c.name ++ str "\n" ++
  str "- **Status:** " ++ (if c.closed then str "Closed" else str "Open") ++ str "\n" ++
  str "- **Description:** " ++ (if c.desc.isEmpty then str "No description" else c.desc) ++
  str "\n" ++
  str "- **Last Updated:** " ++ c.lastActivityRaw ++ str "\n" ++
  str "- **URL:** " ++ c.url ++ str "\n\n"

/-- The `all_cards` gathering loop of `generate_daily_stand_up`:
per list, skip failed or empty card fetches (`if cards_dict:`), then keep
the cards whose detail fetch succeeded.  (The `list_name` annotation the
code adds to each detail dict is never read afterwards.) -/
def standUpAllCards (env : TrelloEnv) (lists : List (Str × Str)) : List CardDetail :=
  lists.flatMap (fun p =>
    match env.cardsOf p.2 with
    | none => []
    | some cards =>
      if cards.isEmpty then []
      else cards.filterMap (fun cd => env.cardDetail cd.2))

/-- `generate_daily_stand_up()` of `src/core/tools.py`.  Cards whose
`dateLastActivity` failed to parse are skipped by the `try/except`. -/
def generate_daily_stand_up (env : TrelloEnv) : OpResult :=
  match env.lists with
  | none => .error (str "daily_summary") (str "Unable to retrieve lists from the board.") none
  | some lists =>
    if lists.isEmpty then
      .error (str "daily_summary") (str "Unable to retrieve lists from the board.") none
    else
      let allCards := standUpAllCards env lists
      let headSummary :=
        str "# Daily Stand-Up Summary\n\n" ++ str "Date: " ++ env.todayText ++ str "\n\n"
      let todayCards := allCards.filter (fun c => c.lastActivityDay == some env.today)
      if todayCards.isEmpty then
        .dailySummary (headSummary ++ str "No cards were updated today.\n") 0
      else
        .dailySummary
          (todayCards.foldl (fun acc c => acc ++ standUpCardSection c)
            (headSummary ++ str "## Cards Updated Today (" ++ natStr todayCards.length ++
              str ")\n\n"))
          todayCards.length

/-! ## `src/core/response_coordinator.py` — `SlackResponseCoordinator`

Slack Block Kit payloads are reduced to the three block shapes the
coordinator emits; `send_to_slack(message, ..., blocks, ...)` is modelled
by returning the `(text, blocks)` payload it would be handed. -/

/-- The block shapes built by the coordinator. -/
inductive SlackBlock where
  | header (text : Str)
  | sect (text : Str)
  | divider
deriving DecidableEq

/-- `SlackResponseCoordinator.format_cards_list`. -/
def format_cards_list (list_name : Str) (cards : List (Str × Str)) : List SlackBlock :=
  [SlackBlock.header (str "📋 Cards in '" ++ list_name ++ str "'"), SlackBlock.divider] ++
    (if cards.isEmpty then [SlackBlock.sect (str "_No cards in this list_")]
     else cards.map (fun p => SlackBlock.sect (str "• " ++ p.1)))

/-- `SlackResponseCoordinator.format_success_message`. -/
def format_success_message (message : Str) : List SlackBlock :=
  [SlackBlock.sect (str "✅ *Success*"), SlackBlock.sect message]

/-- `SlackResponseCoordinator.format_error_message`.  The suggestion line
is appended only when `suggestions` is truthy (present and non-empty). -/
def format_error_message (error : Str) (suggestions : Option (List Str)) : List SlackBlock :=
  [SlackBlock.sect (str "❌ *Error*"), SlackBlock.sect error] ++
    (match suggestions with
     | none => []
     | some s =>
       if s.isEmpty then []
       else
         [SlackBlock.sect
           (str "Did you mean one of these? " ++
             joinStr (str ", ") (s.map (fun x => str "`" ++ x ++ str "`")))])

/-- The per-section body of `format_daily_report`'s loop: a bolded title
block from the first line, a content block when the remaining lines are
non-blank, and the divider appended after every section. -/
def reportSectionChunk (sec : Str) : List SlackBlock :=
  match pySplit (str "\n") (pyTrim sec) with
  | [] => []
  | t :: rest =>
    [SlackBlock.sect (str "*" ++ pyTrim t ++ str "*")] ++
      (let content := pyTrim (joinStr (str "\n") rest)
       if content.isEmpty then [] else [SlackBlock.sect content]) ++
      [SlackBlock.divider]

/-- `SlackResponseCoordinator.format_daily_report`: split on `"##"`,
title header, optional `Date:` line from the leading part, the titled
sections, and a final pop of the trailing divider. -/
def format_daily_report (report_content : Str) : List SlackBlock :=
  let sections := pySplit (str "##") report_content
  let blocks := [SlackBlock.header (str "Daily Stand-Up Summary")]
  let blocks := blocks ++
    (match sections with
     | [] => []
     | s0 :: _ =>
       match (pySplit (str "\n") s0).filter (fun l => strIn (str "Date:") l) with
       | [] => []
       | d :: _ => [SlackBlock.sect (pyTrim d)])
  let blocks := blocks ++ [SlackBlock.divider]
  let blocks := blocks ++ sections.tail.foldl (fun acc sec => acc ++ reportSectionChunk sec) []
  if blocks.getLast? = some SlackBlock.divider then blocks.dropLast else blocks

/-- `SlackResponseCoordinator.send_response`, reduced to the Slack payload
`(text, blocks)` it passes to `send_to_slack`. -/
def send_response (result : OpResult) : Str × List SlackBlock :=
  match result with
  | .error _ message suggestions =>
    (str "❌ " ++ message, format_error_message message suggestions)
  | .cardsList list_name cards =>
    (if cards.isEmpty then str "📋 The list '" ++ list_name ++ str "' has no cards."
     else str "📋 Found " ++ natStr cards.length ++ str " card(s) in '" ++ list_name ++ str "'.",
     format_cards_list list_name cards)
  | .cardCreated card_name list_name =>
    let text :=
      str "✅ Successfully created card '" ++ card_name ++ str "' in list '" ++ list_name ++
        str "'."
    (text, format_success_message text)
  | .cardMoved card_name source_list target_list =>
    let text :=
      str "✅ Successfully moved card '" ++ card_name ++ str "' from '" ++ source_list ++
        str "' to '" ++ target_list ++ str "'."
    (text, format_success_message text)
  | .cardUpdated card_name updates =>
    let text :=
      str "✅ Successfully updated " ++
        (if updates.isEmpty then str "details" else joinStr (str " and ") updates) ++
        str " of card '" ++ card_name ++ str "'."
    (text, format_success_message text)
  | .boardsList boards =>
    if boards.isEmpty then
      (str "📋 No Trello boards found.", [SlackBlock.sect (str "📋 No Trello boards found.")])
    else
      (str "📋 Found " ++ natStr boards.length ++ str " Trello board(s).",
       [SlackBlock.header (str "📋 Your Trello Boards"), SlackBlock.divider] ++
         boards.map (fun p => SlackBlock.sect (str "• " ++ p.1)))
  | .dailySummary summary _ =>
    if 500 < summary.length ∨ strIn (str "##") summary then
      (str "📊 Daily Stand-Up Summary", format_daily_report summary)
    else
      (summary, [SlackBlock.sect summary])

/-! ## Webhook handlers — `src/app.py` and the top-level `app.py`

A POST to `/slack/events` is reduced to what the handlers inspect:
whether `is_valid_slack_request()` would accept its headers, and whether
the JSON body carries a `challenge` or an `event`.  The response is the
`(status code, body)` pair returned to Slack; event processing happens
on a background `threading.Thread` and never affects the response. -/

/-- What a `/slack/events` POST looks like to the handlers. -/
structure SlackEventsRequest where
  /-- `is_valid_slack_request()`: the `X-Slack-Signature` HMAC check. -/
  validSignature : Bool
  /-- The body's `challenge` field, when present. -/
  challenge : Option Str
  /-- Whether the body has an `event` field. -/
  hasEvent : Bool
deriving DecidableEq

/-- The JSON bodies the handlers can answer with. -/
inductive EventsBody where
  | invalidRequest
  | challengeEcho (c : Str)
  | statusOk
deriving DecidableEq

/-- `slack_events` of `src/app.py` (and of `src/routes/slack_events.py`,
which is line-for-line the same handler): verify the signature first,
then echo a `challenge`, otherwise hand the event to a background thread
and acknowledge immediately. -/
def slack_events (r : SlackEventsRequest) : Nat × EventsBody :=
  if !r.validSignature then (403, .invalidRequest)
  else
    match r.challenge with
    | some c => (200, .challengeEcho c)
    | none => (200, .statusOk)

/-- `slack_events` of the top-level `app.py`: same shape but with no
signature verification at all (its own comment reads "Esto debería
implementarse para producción"). -/
def slack_events_legacy (r : SlackEventsRequest) : Nat × EventsBody :=
  match r.challenge with
  | some c => (200, .challengeEcho c)
  | none => (200, .statusOk)

/-! ## The reasoning loop — `src/core/agent.py`

`create_trello_agent` wires the cyclic graph
`assistant → (tools → assistant)* → format_response` and
`process_slack_message` runs it, converting any exception into a single
error message to Slack.  The LLM is the oracle `reasoner`, giving the
`AIMessage` produced by the `assistant` node on its `k`-th invocation.

Modelled from the spec: the graph runtime that executes the compiled
graph (and its cycle bound) is not under `src/`; §4.1 of the spec fixes
its contract — count `cyclesUsed` at each tool dispatch and, as soon as
`cyclesUsed > maxCycles` (default 25), abort the loop, produce a
synthetic `Error{"cycle limit exceeded"}` and go to `Respond` (in the
code the abort surfaces as the exception caught by
`process_slack_message`, which sends the error text). -/

/-- One `AIMessage`: its text content and its `tool_calls`. -/
structure AIReply where
  content : Str
  toolCalls : List Str
deriving DecidableEq

/-- `format_response_node` of `src/core/agent.py`, reduced to the message
it sends to Slack: an apology when the last message is missing or not an
`AIMessage`, nothing while `tool_calls` are pending, otherwise the
assistant's text. -/
def format_response_node (last : Option AIReply) : Option Str :=
  match last with
  | none => some (str "❌ Sorry, something went wrong processing your request.")
  | some r => if r.toolCalls.isEmpty then some r.content else none

/-- The synthetic result of exceeding the cycle bound (spec §4.1). -/
def cycleLimitMsg : Str := str "cycle limit exceeded"

/-- What one graph run produces: how many times the `tools` node
dispatched, every message sent to Slack (in order), the final response,
and whether the cycle backstop fired. -/
structure TurnResult where
  dispatches : Nat
  sends : List Str
  finalResponse : Str
  aborted : Bool
deriving DecidableEq

/-- The abort exit: the loop is cut, the synthetic error becomes the
turn's one user-visible message (`process_slack_message`'s `except`). -/
def abortResult (used : Nat) : TurnResult :=
  { dispatches := used, sends := [cycleLimitMsg], finalResponse := cycleLimitMsg,
    aborted := true }

/-- The `assistant ↔ tools` cycle.  `fuel` only makes the recursion
structural; started at `maxCycles + 1` it never reaches `0` before the
`cyclesUsed > maxCycles` check fires. -/
def runTurnAux (reasoner : Nat → AIReply) (maxCycles : Nat) : Nat → Nat → TurnResult
  | 0, used => abortResult used
  | fuel + 1, used =>
    let r := reasoner used
    if r.toolCalls.isEmpty then
      -- `should_continue` routes to `format_response`, which sends once
      match format_response_node (some r) with
      | some text =>
        { dispatches := used, sends := [text], finalResponse := text, aborted := false }
      | none =>
        { dispatches := used, sends := [], finalResponse := r.content, aborted := false }
    else
      -- `should_continue` routes to `tools`; one dispatch, then back
      let used' := used + 1
      if maxCycles < used' then abortResult used'
      else runTurnAux reasoner maxCycles fuel used'

/-- One whole turn of `process_slack_message` through the compiled graph. -/
def runTurn (reasoner : Nat → AIReply) (maxCycles : Nat) : TurnResult :=
  runTurnAux reasoner maxCycles (maxCycles + 1) 0

/-! ## Spec-side reference definitions

These two definitions follow the specification's wording, not the code;
each is compared against the corresponding code-side definition above. -/

/-- The spec's suggestion rule, verbatim: "all names containing the query
as a case-insensitive substring (either direction)". -/
def eitherDirSuggestions (query : Str) (d : List (Str × Str)) : List Str :=
  (d.map Prod.fst).filter
    (fun n => strIn (pyLower query) (pyLower n) || strIn (pyLower n) (pyLower query))

/-- Join block groups with a single divider between consecutive groups. -/
def joinSep (sep : List SlackBlock) : List (List SlackBlock) → List SlackBlock
  | [] => []
  | [x] => x
  | x :: y :: rest => x ++ sep ++ joinSep sep (y :: rest)

/-- One titled sub-block of the spec's daily-report layout: the section's
first line is its title, the remaining lines its body. -/
def specReportSection (sec : Str) : List SlackBlock :=
  let lines := pySplit (str "\n") (pyTrim sec)
  let title := pyTrim (lines.headD [])
  let body := pyTrim (joinStr (str "\n") lines.tail)
  SlackBlock.sect (str "*" ++ title ++ str "*") ::
    (if body.isEmpty then [] else [SlackBlock.sect body])

/-- The spec's daily-report layout, verbatim: "split on the delimiter
into a title block, an optional date line (first line containing
'Date:'), then one titled sub-block per remaining section ... Trailing
empty separators must be suppressed" — so dividers only ever sit between
blocks, never at the end. -/
def specDailyBlocks (report : Str) : List SlackBlock :=
  let sections := pySplit (str "##") report
  let dateBlocks :=
    match (pySplit (str "\n") (sections.headD [])).filter (fun l => strIn (str "Date:") l) with
    | [] => []
    | d :: _ => [SlackBlock.sect (pyTrim d)]
  let subBlocks := sections.tail.map specReportSection
  SlackBlock.header (str "Daily Stand-Up Summary") :: dateBlocks ++
    (if subBlocks.isEmpty then []
     else SlackBlock.divider :: joinSep [SlackBlock.divider] subBlocks)

/-! ## Concrete fixtures

Small closed instances used to instantiate the theorems below. -/

/-- A Reasoner stub that requests a tool call on every invocation
(the loop-inducing mock of spec Scenario D). -/
def loopingReasoner : Nat → AIReply := fun _ => { content := [], toolCalls := [str "t"] }

/-- A board with lists "To Do" and "Done"; every remote call succeeds. -/
def envToDo : TrelloEnv :=
  { lists := some [(str "To Do", str "l1"), (str "Done", str "l2")],
    cardsOf := fun _ => some [(str "Fix login bug", str "c1")],
    createOk := fun _ _ _ => true, moveOk := fun _ _ => true,
    updateOk := fun _ _ _ => true, cardDetail := fun _ => none,
    today := 0, todayText := str "01/01/2025" }

/-- A board with lists "A" and "Zed" (spec Scenario B). -/
def envZed : TrelloEnv :=
  { lists := some [(str "A", str "l1"), (str "Zed", str "l2")],
    cardsOf := fun _ => some [(str "X", str "c1")],
    createOk := fun _ _ _ => true, moveOk := fun _ _ => true,
    updateOk := fun _ _ _ => true, cardDetail := fun _ => none,
    today := 0, todayText := str "01/01/2025" }

/-- A board with the single list "Done". -/
def envDone : TrelloEnv :=
  { lists := some [(str "Done", str "l1")], cardsOf := fun _ => some [],
    createOk := fun _ _ _ => true, moveOk := fun _ _ => true,
    updateOk := fun _ _ _ => true, cardDetail := fun _ => none,
    today := 0, todayText := str "01/01/2025" }

/-- A board whose list fetch succeeds but returns zero lists. -/
def envEmptyBoard : TrelloEnv :=
  { lists := some [], cardsOf := fun _ => none,
    createOk := fun _ _ _ => false, moveOk := fun _ _ => false,
    updateOk := fun _ _ _ => false, cardDetail := fun _ => none,
    today := 0, todayText := str "01/01/2025" }

/-- A stored conversation created at second 100. -/
def demoConv : Conversation :=
  { action_type := str "create_card", created_at := 100,
    context := [(str "list_name", str "To Do")], state := str "awaiting_response" }

/-- A store holding `demoConv` under thread id "t1". -/
def demoStore : ConvStore := [(str "t1", demoConv)]

/-- A webhook POST with an invalid signature but a challenge field. -/
def forgedRequest : SlackEventsRequest :=
  { validSignature := false, challenge := some (str "abc123"), hasEvent := false }

/-! ## Supporting lemmas -/

theorem dictLookup_dictSet_self {α : Type} (k : Str) (v : α) (d : List (Str × α)) :
    dictLookup k (dictSet k v d) = some v := by
  induction d with
  | nil => simp [dictSet, dictLookup]
  | cons p rest ih =>
    by_cases h : p.1 = k
    · simp [dictSet, dictLookup, h]
    · simpa [dictSet, dictLookup, h] using ih

theorem dictLookup_dictSet_ne {α : Type} {k k' : Str} (hne : k' ≠ k) (v : α)
    (d : List (Str × α)) : dictLookup k' (dictSet k v d) = dictLookup k' d := by
  have hkk : k ≠ k' := fun h => hne h.symm
  induction d with
  | nil => simp [dictSet, dictLookup, hkk]
  | cons p rest ih =>
    by_cases h : p.1 = k
    · subst h
      simp [dictSet, dictLookup, hkk]
    · by_cases h' : p.1 = k' <;> simp [dictSet, dictLookup, h, h', hne, ih]

theorem dictLookup_dictErase_self {α : Type} (k : Str) (d : List (Str × α)) :
    dictLookup k (dictErase k d) = none := by
  induction d with
  | nil => rfl
  | cons p rest ih =>
    by_cases h : p.1 = k
    · simpa [dictErase, dictLookup, h] using ih
    · simpa [dictErase, dictLookup, h] using ih

theorem pySplitAux_ne_nil (sep : Str) : ∀ (n : Nat) (s acc : Str), s.length ≤ n →
    pySplitAux sep s acc ≠ []
  | _, [], _, _ => by simp [pySplitAux]
  | 0, c :: rest, _, h => by simp at h
  | n + 1, c :: rest, acc, h => by
    simp only [pySplitAux]
    split
    · simp
    · exact pySplitAux_ne_nil sep n rest (c :: acc) (by simp at h; omega)

theorem pySplit_ne_nil (sep s : Str) : pySplit sep s ≠ [] :=
  pySplitAux_ne_nil sep s.length s [] (Nat.le_refl _)

/-- A member with the queried lowercase form is what `lowerResolve` finds,
provided the stored names have pairwise distinct lowercase forms (a board
cannot carry two lists whose names differ only by case and still be
case-insensitively addressable). -/
theorem lowerResolve_eq_some {d : List (Str × Str)} {q n i : Str}
    (hnodup : (d.map (fun p => pyLower p.1)).Nodup)
    (hmem : (n, i) ∈ d) (hq : pyLower q = pyLower n) :
    lowerResolve q d = some (n, i) := by
  induction d with
  | nil => cases hmem
  | cons p rest ih =>
    rw [List.map_cons, List.nodup_cons] at hnodup
    rcases List.mem_cons.mp hmem with heq | hmem'
    · subst heq
      have hrest : rest.filter (fun p => pyLower p.1 == pyLower n) = [] := by
        rw [List.filter_eq_nil_iff]
        intro a ha
        simp only [beq_iff_eq]
        intro hcontr
        exact hnodup.1 (hcontr ▸ List.mem_map_of_mem (fun p => pyLower p.1) ha)
      simp [lowerResolve, List.filter_cons, hq, hrest]
    · have hp : ¬(pyLower p.1 = pyLower q) := by
        rw [hq]
        intro hcontr
        exact hnodup.1 (hcontr ▸ List.mem_map_of_mem (fun p => pyLower p.1) hmem')
      simpa [lowerResolve, List.filter_cons, hp] using ih hnodup.2 hmem'

theorem dictLookup_eq_none {α : Type} {k : Str} : ∀ {d : List (Str × α)},
    (∀ p ∈ d, p.1 ≠ k) → dictLookup k d = none
  | [], _ => rfl
  | p :: rest, h => by
    obtain ⟨k', v⟩ := p
    have hp : k' ≠ k := h (k', v) (List.mem_cons_self _ _)
    simp only [dictLookup, if_neg hp]
    exact dictLookup_eq_none (fun a ha => h a (List.mem_cons_of_mem _ ha))

theorem List.foldl_append_map {α β : Type} (f : α → List β) :
    ∀ (l : List α) (acc : List β),
      l.foldl (fun a s => a ++ f s) acc = acc ++ (l.map f).flatten
  | [], acc => by simp
  | x :: rest, acc => by
    simp [List.foldl_append_map f rest (acc ++ f x), List.append_assoc]

theorem reportSectionChunk_eq (sec : Str) :
    reportSectionChunk sec = specReportSection sec ++ [SlackBlock.divider] := by
  unfold reportSectionChunk specReportSection
  cases h : pySplit (str "\n") (pyTrim sec) with
  | nil => exact absurd h (pySplit_ne_nil _ _)
  | cons t rest => simp [h]

theorem flatten_map_chunk (g : Str → List SlackBlock) :
    ∀ (l : List Str), l ≠ [] →
      (l.map (fun s => g s ++ [SlackBlock.divider])).flatten =
        joinSep [SlackBlock.divider] (l.map g) ++ [SlackBlock.divider]
  | [x], _ => by simp [joinSep]
  | x :: y :: rest, _ => by
    have ih := flatten_map_chunk g (y :: rest) (by simp)
    simp only [List.map_cons, List.flatten_cons] at ih ⊢
    rw [ih, joinSep]
    simp [List.append_assoc]

theorem format_daily_report_eq_spec (r : Str) :
    format_daily_report r = specDailyBlocks r := by
  unfold format_daily_report specDailyBlocks
  cases hs : pySplit (str "##") r with
  | nil => exact absurd hs (pySplit_ne_nil _ _)
  | cons s0 srest =>
    simp only [List.headD_cons, List.tail_cons]
    generalize (match (pySplit (str "\n") s0).filter (fun l => strIn (str "Date:") l) with
      | [] => ([] : List SlackBlock)
      | d :: _ => [SlackBlock.sect (pyTrim d)]) = dB
    cases srest with
    | nil =>
      simp only [List.map_nil, List.foldl_nil, List.append_nil]
      rw [if_pos (List.getLast?_concat _), List.dropLast_concat]
      simp
    | cons s1 srest' =>
      rw [List.foldl_append_map]
      have hchunks : (s1 :: srest').map reportSectionChunk =
          (s1 :: srest').map (fun s => specReportSection s ++ [SlackBlock.divider]) := by
        simp [reportSectionChunk_eq]
      rw [hchunks, flatten_map_chunk specReportSection (s1 :: srest') (by simp)]
      conv_lhs => simp only [List.nil_append, ← List.append_assoc]
      rw [if_pos (List.getLast?_concat _), List.dropLast_concat]
      simp [List.append_assoc]

theorem runTurnAux_spec (reasoner : Nat → AIReply) (m : Nat) :
    ∀ (fuel used : Nat),
      (runTurnAux reasoner m fuel used).sends =
        [(runTurnAux reasoner m fuel used).finalResponse] ∧
      (runTurnAux reasoner m fuel used).dispatches ≤ used + fuel ∧
      ((runTurnAux reasoner m fuel used).aborted = true →
        (runTurnAux reasoner m fuel used).finalResponse = cycleLimitMsg) ∧
      (used ≤ m → (runTurnAux reasoner m fuel used).aborted = false →
        (runTurnAux reasoner m fuel used).dispatches ≤ m)
  | 0, used => by simp [runTurnAux, abortResult]
  | fuel + 1, used => by
    have ih := runTurnAux_spec reasoner m fuel (used + 1)
    simp only [runTurnAux]
    by_cases hempty : (reasoner used).toolCalls.isEmpty
    · rw [if_pos hempty]
      simp [format_response_node, hempty]
    · rw [if_neg hempty]
      by_cases hover : m < used + 1
      · rw [if_pos hover]
        simp [abortResult]
      · rw [if_neg hover]
        exact ⟨ih.1, by have := ih.2.1; omega, ih.2.2.1,
          fun hm hab => ih.2.2.2 (by omega) hab⟩

/-- Every error exit of `move_card_between_lists` happens before (or
instead of) a successful `update_trello_card` call: the move trace is
empty unless the result is the success dict. -/
theorem move_trace_empty_or_success (env : TrelloEnv) (card_name src tgt : Str) :
    (move_card_between_lists env card_name src tgt).1.isErr = false ∨
    (move_card_between_lists env card_name src tgt).2 = [] := by
  cases henv : env.lists with
  | none => right; simp [move_card_between_lists, henv]
  | some lists =>
    by_cases hempty : lists.isEmpty
    · right; simp [move_card_between_lists, henv, hempty]
    · cases hsrc : lowerResolve src lists with
      | none => right; simp [move_card_between_lists, henv, hempty, hsrc]
      | some ps =>
        obtain ⟨sa, si⟩ := ps
        cases htgt : lowerResolve tgt lists with
        | none => right; simp [move_card_between_lists, henv, hempty, hsrc, htgt]
        | some pt =>
          obtain ⟨ta, ti⟩ := pt
          cases hcards : env.cardsOf si with
          | none => right; simp [move_card_between_lists, henv, hempty, hsrc, htgt, hcards]
          | some cards =>
            cases hcard : lowerResolve card_name cards with
            | none =>
              right
              simp [move_card_between_lists, henv, hempty, hsrc, htgt, hcards, hcard]
            | some pc =>
              obtain ⟨ca, ci⟩ := pc
              by_cases hmv : env.moveOk ci ti
              · left
                simp [move_card_between_lists, henv, hempty, hsrc, htgt, hcards, hcard, hmv,
                  OpResult.isErr]
              · right
                simp [move_card_between_lists, henv, hempty, hsrc, htgt, hcards, hcard, hmv]

/-! ## Claim theorems -/

/-- **C1** (corrected).  For every Reasoner behaviour and every
`maxCycles`, the reasoning loop terminates after at most `maxCycles + 1`
tool dispatches — per spec §4.1 and Scenario D the dispatch that drives
`cyclesUsed` past `maxCycles` is the last one; a non-aborted turn stays
within `maxCycles` — and an aborted turn still ends with the synthetic
cycle-limit `Error` as its single user-visible message. -/
theorem cycle_bound_loop (reasoner : Nat → AIReply) (maxCycles : Nat) :
    (runTurn reasoner maxCycles).dispatches ≤ maxCycles + 1 ∧
    (runTurn reasoner maxCycles).sends.length = 1 ∧
    ((runTurn reasoner maxCycles).aborted = true →
      (runTurn reasoner maxCycles).finalResponse = cycleLimitMsg ∧
      (runTurn reasoner maxCycles).sends = [cycleLimitMsg]) ∧
    ((runTurn reasoner maxCycles).aborted = false →
      (runTurn reasoner maxCycles).dispatches ≤ maxCycles) := by
  unfold runTurn
  obtain ⟨h1, h2, h3, h4⟩ := runTurnAux_spec reasoner maxCycles (maxCycles + 1) 0
  refine ⟨?_, ?_, ?_, ?_⟩
  · simpa using h2
  · rw [h1]
    rfl
  · intro hab
    exact ⟨h3 hab, by rw [h1, h3 hab]⟩
  · exact h4 (Nat.zero_le _)

/-- **C1** counterexample to the claim as stated: with `maxCycles = 2`
the always-tool-requesting Reasoner drives 3 tool dispatches, one more
than the claimed `maxCycles` bound. -/
theorem cycle_bound_loop_cex :
    (runTurn loopingReasoner 2).dispatches = 3 ∧
    ¬(runTurn loopingReasoner 2).dispatches ≤ 2 := by decide

/-- **C1** witness: at `maxCycles = 1` the aborted turn delivers exactly
the synthetic cycle-limit error. -/
theorem cycle_bound_loop_witness :
    (runTurn loopingReasoner 1).finalResponse = cycleLimitMsg ∧
    (runTurn loopingReasoner 1).sends = [cycleLimitMsg] :=
  (cycle_bound_loop loopingReasoner 1).2.2.1 (by decide)

/-- **C2**.  For every Reasoner behaviour, one turn invokes the outbound
send exactly once, and that send carries the turn's final response —
both on normal completion and on the cycle-limit abort path. -/
theorem single_delivery (reasoner : Nat → AIReply) (maxCycles : Nat) :
    (runTurn reasoner maxCycles).sends =
      [(runTurn reasoner maxCycles).finalResponse] :=
  (runTurnAux_spec reasoner maxCycles (maxCycles + 1) 0).1

/-- **C3** (corrected).  `list_cards_in_list`, `create_new_card` and
`move_card_between_lists` resolve list — and, for the move, card — names
by case-insensitive exact match against the freshly fetched names and
return the canonical stored names; `update_card_details`, however,
resolves case-sensitively: a query matching no stored name verbatim
fails with a not-found error even when only letter case differs. -/
theorem case_insensitive_resolution (env : TrelloEnv) (lists : List (Str × Str))
    (q n i : Str) (hl : env.lists = some lists)
    (hnodup : (lists.map (fun p => pyLower p.1)).Nodup)
    (hmem : (n, i) ∈ lists) (hq : pyLower q = pyLower n) :
    (∀ cards, env.cardsOf i = some cards →
      list_cards_in_list env q = .cardsList n cards) ∧
    (∀ cn d, env.createOk i cn d = true →
      create_new_card env cn q d = .cardCreated cn n) ∧
    (∀ m j qt cards cn ci qc,
      (m, j) ∈ lists → pyLower qt = pyLower m →
      env.cardsOf i = some cards →
      (cards.map (fun p => pyLower p.1)).Nodup →
      (cn, ci) ∈ cards → pyLower qc = pyLower cn →
      env.moveOk ci j = true →
      move_card_between_lists env qc q qt = (.cardMoved cn n m, [(ci, j)])) ∧
    (∀ cn nn nd, (optTruthy nn || optTruthy nd) = true →
      (∀ p ∈ lists, p.1 ≠ q) →
      update_card_details env cn q nn nd =
        .error (str "card_updated") (str "List '" ++ q ++ str "' not found.") none) := by
  have hres : lowerResolve q lists = some (n, i) := lowerResolve_eq_some hnodup hmem hq
  have hno : lists.isEmpty = false := by
    cases lists with
    | nil => cases hmem
    | cons a t => rfl
  refine ⟨?_, ?_, ?_, ?_⟩
  · intro cards hc
    simp [list_cards_in_list, hl, hno, hres, hc]
  · intro cn d hcrea
    simp [create_new_card, hl, hno, hres, hcrea]
  · intro m j qt cards cn ci qc hm hqt hc hcnodup hcm hqc hmv
    have hrest : lowerResolve qt lists = some (m, j) := lowerResolve_eq_some hnodup hm hqt
    have hresc : lowerResolve qc cards = some (cn, ci) := lowerResolve_eq_some hcnodup hcm hqc
    simp [move_card_between_lists, hl, hno, hres, hrest, hresc, hc, hmv]
  · intro cn nn nd hupd hnex
    have hnol : dictLookup q lists = none := dictLookup_eq_none hnex
    have hno2 : (!optTruthy nn && !optTruthy nd) = false := by
      cases hx : optTruthy nn <;> cases hy : optTruthy nd <;> simp_all
    simp [update_card_details, hl, hno, hno2, hnol]

/-- **C3** counterexample: against a stored list named "To Do",
`update_card_details` rejects the query "to do" — a pure case variant —
with a not-found error instead of resolving it. -/
theorem case_insensitive_resolution_cex :
    pyLower (str "to do") = pyLower (str "To Do") ∧
    update_card_details envToDo (str "Fix login bug") (str "to do")
        (some (str "New name")) none =
      .error (str "card_updated") (str "List 'to do' not found.") none := by decide

/-- **C3** witness: "TO DO" resolves against "To Do" and the result
carries the canonical name. -/
theorem case_insensitive_resolution_witness :
    list_cards_in_list envToDo (str "TO DO") =
      .cardsList (str "To Do") [(str "Fix login bug", str "c1")] :=
  ((case_insensitive_resolution envToDo [(str "To Do", str "l1"), (str "Done", str "l2")]
      (str "TO DO") (str "To Do") (str "l1") rfl (by decide) (by decide) (by decide)).1
    [(str "Fix login bug", str "c1")] rfl)

/-- **C4** (corrected).  When name resolution fails, the suggestions are
exactly the stored names whose lowercase contains the lowercase query —
one direction only, not "either direction" — with `list_cards_in_list`
collapsing an empty suggestion list to `None`, `create_new_card` and
`move_card_between_lists` keeping it as a (possibly empty) list, and
`update_card_details` returning its error with no suggestions at all;
no operation guesses a target. -/
theorem suggestion_fallback (env : TrelloEnv) (lists : List (Str × Str)) (q : Str)
    (hl : env.lists = some lists) (hne : lists ≠ [])
    (hmiss : lowerResolve q lists = none) :
    list_cards_in_list env q =
      .error (str "cards_list") (str "List '" ++ q ++ str "' not found on the board.")
        (optSuggestions (nameSuggestions q lists)) ∧
    (∀ cn d, create_new_card env cn q d =
      .error (str "card_created") (str "List '" ++ q ++ str "' not found.")
        (some (nameSuggestions q lists))) ∧
    (∀ cn tgt, move_card_between_lists env cn q tgt =
      (.error (str "card_moved") (str "Source list '" ++ q ++ str "' not found.")
        (some (nameSuggestions q lists)), [])) ∧
    (∀ s, s ∈ nameSuggestions q lists ↔
      s ∈ lists.map Prod.fst ∧ strIn (pyLower q) (pyLower s) = true) ∧
    (∀ cn nn nd, (optTruthy nn || optTruthy nd) = true → dictLookup q lists = none →
      update_card_details env cn q nn nd =
        .error (str "card_updated") (str "List '" ++ q ++ str "' not found.") none) := by
  have hno : lists.isEmpty = false := by
    cases lists with
    | nil => exact absurd rfl hne
    | cons a t => rfl
  refine ⟨?_, ?_, ?_, ?_, ?_⟩
  · simp [list_cards_in_list, hl, hno, hmiss]
  · intro cn d
    simp [create_new_card, hl, hno, hmiss]
  · intro cn tgt
    simp [move_card_between_lists, hl, hno, hmiss]
  · intro s
    exact List.mem_filter
  · intro cn nn nd hupd hnol
    have hno2 : (!optTruthy nn && !optTruthy nd) = false := by
      cases hx : optTruthy nn <;> cases hy : optTruthy nd <;> simp_all
    simp [update_card_details, hl, hno, hno2, hnol]

/-- **C4** counterexample: "Done" is a case-insensitive substring of the
query "my Done list" (the spec's "either direction" rule would suggest
it), yet the operation returns no suggestions, because the code only
checks whether the query is contained in a stored name. -/
theorem suggestion_fallback_cex :
    eitherDirSuggestions (str "my Done list") [(str "Done", str "l1")] = [str "Done"] ∧
    list_cards_in_list envDone (str "my Done list") =
      .error (str "cards_list") (str "List 'my Done list' not found on the board.") none := by
  decide

/-- **C4** witness (spec P5): resolving "don" against a board holding
"Done" fails with the not-found error and suggestion "Done". -/
theorem suggestion_fallback_witness :
    list_cards_in_list envDone (str "don") =
      .error (str "cards_list") (str "List 'don' not found on the board.")
        (optSuggestions (nameSuggestions (str "don") [(str "Done", str "l1")])) :=
  (suggestion_fallback envDone [(str "Done", str "l1")] (str "don") rfl (by decide)
    (by decide)).1

/-- **C5**.  A stored session strictly older than `ttl` seconds is
reported absent by `get` and evicted: a second `get` also returns `None`
on an unchanged store, and `end` is then a no-op; a session of age at
most `ttl` is returned unexpired with the store untouched. -/
theorem session_ttl (now ttl : Nat) (store : ConvStore) (tid : Str) (c : Conversation)
    (hmem : dictLookup tid store = some c) :
    (ttl < now - c.created_at →
      get_conversation now ttl store tid = (none, dictErase tid store) ∧
      get_conversation now ttl (dictErase tid store) tid = (none, dictErase tid store) ∧
      end_conversation (dictErase tid store) tid = dictErase tid store) ∧
    (now - c.created_at ≤ ttl → get_conversation now ttl store tid = (some c, store)) := by
  have herase : dictLookup tid (dictErase tid store) = none :=
    dictLookup_dictErase_self tid store
  constructor
  · intro hexp
    refine ⟨?_, ?_, ?_⟩
    · simp [get_conversation, hmem, hexp, end_conversation]
    · simp [get_conversation, herase]
    · simp [end_conversation, herase]
  · intro hfresh
    simp [get_conversation, hmem, Nat.not_lt.mpr hfresh]

/-- **C5** witness: with `ttl = 3600`, the session created at second 100
is expired at second 4000 and evicted by `get`. -/
theorem session_ttl_witness :
    get_conversation 4000 3600 demoStore (str "t1") = (none, dictErase (str "t1") demoStore) :=
  ((session_ttl 4000 3600 demoStore (str "t1") demoConv (by decide)).1 (by decide)).1

/-- **C6**.  A move whose target list fails to resolve returns an error
that lists every stored name containing the query (so the near-miss is
among the suggestions), and more generally every error return of
`move_card_between_lists` performs no card-moving remote write. -/
theorem move_error_no_move (env : TrelloEnv) (cn src tgt : Str) :
    ((move_card_between_lists env cn src tgt).1.isErr = true →
      (move_card_between_lists env cn src tgt).2 = []) ∧
    (∀ lists n i sa, env.lists = some lists → lists ≠ [] →
      lowerResolve src lists = some sa →
      lowerResolve tgt lists = none →
      (n, i) ∈ lists → strIn (pyLower tgt) (pyLower n) = true →
      (move_card_between_lists env cn src tgt).1 =
        .error (str "card_moved") (str "Target list '" ++ tgt ++ str "' not found.")
          (some (nameSuggestions tgt lists)) ∧
      n ∈ nameSuggestions tgt lists ∧
      (move_card_between_lists env cn src tgt).2 = []) := by
  constructor
  · intro herr
    rcases move_trace_empty_or_success env cn src tgt with h | h
    · rw [herr] at h
      cases h
    · exact h
  · intro lists n i sa hl hne hs ht hm hin
    have hno : lists.isEmpty = false := by
      cases lists with
      | nil => exact absurd rfl hne
      | cons a t => rfl
    obtain ⟨san, sai⟩ := sa
    refine ⟨?_, ?_, ?_⟩
    · simp [move_card_between_lists, hl, hno, hs, ht]
    · exact List.mem_filter.mpr ⟨List.mem_map_of_mem Prod.fst hm, hin⟩
    · simp [move_card_between_lists, hl, hno, hs, ht]

/-- **C6** witness (spec Scenario B): moving "X" from "A" to the absent
"Z" on a board holding "Zed" errors with suggestion "Zed" and performs
no move. -/
theorem move_error_no_move_witness :
    (move_card_between_lists envZed (str "X") (str "A") (str "Z")).1 =
      .error (str "card_moved") (str "Target list 'Z' not found.")
        (some (nameSuggestions (str "Z") [(str "A", str "l1"), (str "Zed", str "l2")])) ∧
    str "Zed" ∈ nameSuggestions (str "Z") [(str "A", str "l1"), (str "Zed", str "l2")] ∧
    (move_card_between_lists envZed (str "X") (str "A") (str "Z")).2 = [] :=
  (move_error_no_move envZed (str "X") (str "A") (str "Z")).2
    [(str "A", str "l1"), (str "Zed", str "l2")] (str "Zed") (str "l2")
    (str "A", str "l1") rfl (by decide) (by decide) (by decide) (by decide) (by decide)

/-- **C7**.  A `DailySummary` result is sent as the structured
multi-section layout exactly when its text is longer than 500 characters
or contains the "##" delimiter; the structured layout equals the spec's
shape — title block, optional first "Date:" line of the leading part,
then one titled sub-block per remaining section (first line title, rest
body) with separators only between blocks, never trailing — and
otherwise the report goes out as a single plain block. -/
theorem daily_summary_dispatch (s : Str) (count : Nat) :
    ((500 < s.length ∨ strIn (str "##") s = true) →
      send_response (.dailySummary s count) =
        (str "📊 Daily Stand-Up Summary", specDailyBlocks s)) ∧
    (¬(500 < s.length ∨ strIn (str "##") s = true) →
      send_response (.dailySummary s count) = (s, [SlackBlock.sect s])) := by
  constructor
  · intro hcond
    simp only [send_response]
    rw [if_pos hcond, format_daily_report_eq_spec]
  · intro hcond
    simp only [send_response]
    rw [if_neg hcond]

/-- **C7** witness: a report with a "##" section goes out structured in
the spec's layout; a short plain report goes out as one block. -/
theorem daily_summary_dispatch_witness :
    send_response (.dailySummary (str "Date: 1/1\n## A\nb") 1) =
      (str "📊 Daily Stand-Up Summary", specDailyBlocks (str "Date: 1/1\n## A\nb")) ∧
    send_response (.dailySummary (str "quiet day") 0) =
      (str "quiet day", [SlackBlock.sect (str "quiet day")]) :=
  ⟨(daily_summary_dispatch (str "Date: 1/1\n## A\nb") 1).1 (Or.inr (by decide)),
   (daily_summary_dispatch (str "quiet day") 0).2 (by decide)⟩

/-- **C8** (code bug).  The spec requires the events endpoint to verify
the signed-request header before any processing; `src/app.py` does (an
invalid request gets HTTP 403), but the top-level `app.py` variant of
the same endpoint echoes the challenge of a request whose signature is
invalid — it performs no verification at all, as its own comment
concedes. -/
theorem webhook_verification_gap :
    slack_events_legacy forgedRequest = (200, .challengeEcho (str "abc123")) ∧
    slack_events forgedRequest = (403, .invalidRequest) := by decide

/-- **C9**.  Every tool that starts by fetching the board's lists treats
a successful fetch of zero lists exactly like a failed fetch: the
generic unable-to-retrieve error with no suggestions, never a NotFound
with suggestions. -/
theorem empty_board_generic_error (env : TrelloEnv) (hempty : env.lists = some [])
    (q cn ln d src tgt : Str) (nn nd : Option Str)
    (hupd : (optTruthy nn || optTruthy nd) = true) :
    list_cards_in_list env q = list_cards_in_list { env with lists := none } q ∧
    list_cards_in_list env q =
      .error (str "cards_list") (str "Unable to retrieve list from the board.") none ∧
    create_new_card env cn ln d = create_new_card { env with lists := none } cn ln d ∧
    create_new_card env cn ln d =
      .error (str "create_card") (str "Unable to retrieve lists from the board.") none ∧
    move_card_between_lists env cn src tgt =
      move_card_between_lists { env with lists := none } cn src tgt ∧
    (move_card_between_lists env cn src tgt).1 =
      .error (str "card_moved") (str "Unable to retrieve lists from the board.") none ∧
    update_card_details env cn ln nn nd =
      update_card_details { env with lists := none } cn ln nn nd ∧
    update_card_details env cn ln nn nd =
      .error (str "card_updated") (str "Unable to retrieve lists from the board.") none ∧
    generate_daily_stand_up env = generate_daily_stand_up { env with lists := none } ∧
    generate_daily_stand_up env =
      .error (str "daily_summary") (str "Unable to retrieve lists from the board.") none := by
  have hno : (!optTruthy nn && !optTruthy nd) = false := by
    cases hx : optTruthy nn <;> cases hy : optTruthy nd <;> simp_all
  refine ⟨?_, ?_, ?_, ?_, ?_, ?_, ?_, ?_, ?_, ?_⟩ <;>
    simp [list_cards_in_list, create_new_card, move_card_between_lists,
      update_card_details, generate_daily_stand_up, hempty, hno]

/-- **C9** witness: on a zero-list board the card listing gives the
generic fetch error. -/
theorem empty_board_generic_error_witness :
    list_cards_in_list envEmptyBoard (str "To Do") =
      .error (str "cards_list") (str "Unable to retrieve list from the board.") none :=
  (empty_board_generic_error envEmptyBoard rfl (str "To Do") (str "c") (str "l") (str "")
    (str "s") (str "t") (some (str "x")) none (by decide)).2.1

/-- **C10**.  `update_conversation` touches only the stored context: on a
present thread id it returns `True` and rewrites exactly that entry with
the merged context — `action_type`, `created_at` and `state` unchanged,
every other entry untouched, and the entry's TTL-expiry behaviour under
`get_conversation` unchanged for any clock and ttl; on an absent id it
returns `False` and leaves the store as it was. -/
theorem update_conversation_frame (store : ConvStore) (tid : Str)
    (updates : List (Str × Str)) :
    (∀ c, dictLookup tid store = some c →
      update_conversation store tid updates =
        (true, dictSet tid { c with context := dictUpdate c.context updates } store) ∧
      dictLookup tid (update_conversation store tid updates).2 =
        some { c with context := dictUpdate c.context updates } ∧
      (∀ tid', tid' ≠ tid →
        dictLookup tid' (update_conversation store tid updates).2 = dictLookup tid' store) ∧
      (∀ now ttl,
        ((get_conversation now ttl (update_conversation store tid updates).2 tid).1).isSome =
          ((get_conversation now ttl store tid).1).isSome)) ∧
    (dictLookup tid store = none → update_conversation store tid updates = (false, store)) := by
  constructor
  · intro c hmem
    have hupd : update_conversation store tid updates =
        (true, dictSet tid { c with context := dictUpdate c.context updates } store) := by
      simp [update_conversation, hmem]
    refine ⟨hupd, ?_, ?_, ?_⟩
    · rw [hupd]
      exact dictLookup_dictSet_self ..
    · intro tid' hne
      rw [hupd]
      exact dictLookup_dictSet_ne hne ..
    · intro now ttl
      rw [hupd]
      simp only [get_conversation, dictLookup_dictSet_self, hmem]
      by_cases hx : ttl < now - c.created_at <;> simp [hx]
  · intro hnone
    simp [update_conversation, hnone]

/-- **C10** witness: updating the stored "t1" conversation merges the
context and reports `True`. -/
theorem update_conversation_frame_witness :
    update_conversation demoStore (str "t1") [(str "card_name", str "Buy milk")] =
      (true, dictSet (str "t1")
        { demoConv with
            context := dictUpdate demoConv.context [(str "card_name", str "Buy milk")] }
        demoStore) :=
  ((update_conversation_frame demoStore (str "t1") [(str "card_name", str "Buy milk")]).1
    demoConv (by decide)).1
